import Mathlib

/-!
Shallow embedding of the M-Pesa payment-relay backend
(Express router in `MpesaRoutes.js` plus its Supabase helpers).

JavaScript is single-threaded: each `async` function runs atomically
between `await` points.  The token cache is therefore modelled as a
state machine whose atomic steps are (a) the synchronous prefix of
`generateAccessToken` (cache check, in-flight check, creation of the
in-flight promise up to the first `await`) and (b) the settlement of
the in-flight acquisition (the continuation after `await axios.get`,
including the `catch`/`finally` blocks).

JS `null`/`undefined` are modelled with `Option`; JS numbers with
`Int`/`ℚ`; objects with structures or association lists; a thrown
exception with an explicit error constructor.
-/

namespace LancerMpesa

/-! ## Access-token cache (`accessTokenCache`, `generateAccessToken`) -/

/-- Source: `const ACCESS_TOKEN_BUFFER_MS = 60 * 1000` (refresh 1 minute early). -/
def ACCESS_TOKEN_BUFFER_MS : Int := 60 * 1000

/-- Source: `const accessTokenCache = { token: null, expiresAt: 0, inFlight: null }`.
The in-flight promise is identified by a handle number: two callers that
hold the same handle await the same promise and hence receive the same
resolved value or the same rejection. -/
structure TokenCache where
  token : Option String
  expiresAt : Int
  inFlight : Option Nat
deriving Repr, DecidableEq

/-- The module-initialisation value of `accessTokenCache`. -/
def initialCache : TokenCache := ⟨none, 0, none⟩

/-- What the synchronous prefix of `generateAccessToken` does for one caller:
return the cached token, await the existing in-flight promise, or start a
fresh acquisition (issuing the one provider authentication request). -/
inductive TokenAction where
  | returnCached (t : String)
  | joinInFlight (h : Nat)
  | startNew (h : Nat)
deriving Repr, DecidableEq

/-- Source: `if (accessTokenCache.inFlight) return accessTokenCache.inFlight;`
followed by the assignment of the async IIFE to `accessTokenCache.inFlight`.
The async IIFE issues the provider request and the assignment publishes
the promise before any other caller can run. -/
def genStartOrJoin (c : TokenCache) (fresh : Nat) : TokenAction × TokenCache :=
  match c.inFlight with
  | some h => (TokenAction.joinInFlight h, c)
  | none => (TokenAction.startNew fresh, { c with inFlight := some fresh })

/-- Synchronous prefix of `generateAccessToken`:
`if (accessTokenCache.token && accessTokenCache.expiresAt > now) return accessTokenCache.token;`
then start-or-join.  (A cached token is never the empty string — the
success path refuses falsy `access_token` — so `Option.isSome` is JS
truthiness here.) -/
def generateAccessTokenStep (c : TokenCache) (now : Int) (fresh : Nat) :
    TokenAction × TokenCache :=
  match c.token with
  | some t =>
      if now < c.expiresAt then (TokenAction.returnCached t, c)
      else genStartOrJoin c fresh
  | none => genStartOrJoin c fresh

/-- Shape of `response.data` of the OAuth call: `access_token` and `expires_in`.
Here `expires_in` is `none` when absent and `some 0` models any falsy number. -/
structure TokenResponse where
  access_token : Option String
  expires_in : Option Int
deriving Repr, DecidableEq

/-- How the shared in-flight promise settles: resolve with the token or
reject with the error message; every waiter of the promise observes
this one outcome. -/
inductive AcqOutcome where
  | resolved (t : String)
  | rejected (message : String)
deriving Repr, DecidableEq

/-- Source: `const ttlMs = (Number(expires_in) || 3599) * 1000;` -/
def ttlMs (expires_in : Option Int) : Int :=
  (match expires_in with
   | none => 3599
   | some n => if n = 0 then 3599 else n) * 1000

/-- Settlement of the in-flight acquisition: the continuation after
`await axios.get`.  `resp = none` models a network error (axios threw);
a missing or falsy `access_token` throws inside the `try`.  The `catch`
block clears `token` and `expiresAt`; the `finally` block clears
`inFlight` on every path. -/
def acquisitionComplete (_c : TokenCache) (resp : Option TokenResponse) (now2 : Int) :
    AcqOutcome × TokenCache :=
  match resp with
  | none =>
      (AcqOutcome.rejected "Failed to generate access token", ⟨none, 0, none⟩)
  | some r =>
      match r.access_token with
      | none =>
          (AcqOutcome.rejected "Failed to generate access token", ⟨none, 0, none⟩)
      | some t =>
          if t = "" then
            (AcqOutcome.rejected "Failed to generate access token", ⟨none, 0, none⟩)
          else
            (AcqOutcome.resolved t,
             ⟨some t, now2 + ttlMs r.expires_in - ACCESS_TOKEN_BUFFER_MS, none⟩)

/-- Whole-system state for the single-flight analysis: the cache plus the
number of provider authentication requests currently outstanding and a
supply of fresh promise handles. -/
structure SysState where
  cache : TokenCache
  outstanding : Nat
  nextHandle : Nat
deriving Repr, DecidableEq

/-- Process start: empty cache, no request outstanding. -/
def initState : SysState := ⟨initialCache, 0, 0⟩

/-- Effect of one caller's synchronous prefix on the system: only the
`startNew` branch issues a provider request. -/
def applyCall (s : SysState) (now : Int) : SysState :=
  match generateAccessTokenStep s.cache now s.nextHandle with
  | (TokenAction.startNew _, c') => ⟨c', s.outstanding + 1, s.nextHandle + 1⟩
  | (_, c') => ⟨c', s.outstanding, s.nextHandle⟩

/-- Effect of the in-flight acquisition settling: the provider request is
no longer outstanding and the cache is updated by `acquisitionComplete`. -/
def applyComplete (s : SysState) (resp : Option TokenResponse) (now2 : Int) : SysState :=
  ⟨(acquisitionComplete s.cache resp now2).2, s.outstanding - 1, s.nextHandle⟩

/-- Interleaving of atomic event-loop segments: any caller may run its
synchronous prefix at any time; the in-flight acquisition may settle
whenever one exists. -/
inductive SysStep : SysState → SysState → Prop where
  | call (s : SysState) (now : Int) : SysStep s (applyCall s now)
  | complete (s : SysState) (h : Nat) (resp : Option TokenResponse) (now2 : Int)
      (hin : s.cache.inFlight = some h) : SysStep s (applyComplete s resp now2)

/-- States reachable from process start. -/
inductive Reachable : SysState → Prop where
  | init : Reachable initState
  | step {s s' : SysState} : Reachable s → SysStep s s' → Reachable s'

/-- The single-flight invariant: the outstanding-request count is exactly
the in-flight marker. -/
def SingleFlightInv (s : SysState) : Prop :=
  s.outstanding = if s.cache.inFlight.isSome then 1 else 0

/-! ## JS helpers -/

/-- Primitive JS values occurring in provider payloads and records:
strings, numbers, and `undefined`. -/
inductive JsPrim where
  | str (s : String)
  | num (n : Int)
  | undef
deriving Repr, DecidableEq

/-- JS truthiness of an optional string (`undefined` and `""` are falsy). -/
def jsTruthyStr (v : Option String) : Bool :=
  match v with
  | none => false
  | some s => decide (s ≠ "")

/-- JS truthiness of an optional number (`undefined` and `0` are falsy). -/
def jsTruthyNum (v : Option ℚ) : Bool :=
  match v with
  | none => false
  | some q => decide (q ≠ 0)

/-- JS `v || d` for an optional string default. -/
def jsOr (v : Option String) (d : String) : String :=
  match v with
  | none => d
  | some s => if s = "" then d else s

/-- JS `Math.round`: round half up, i.e. the floor of `q + 1/2`, written
as a floor division on numerator and denominator so that it evaluates by
kernel reduction; `jsRound_eq_floor` below identifies it with the floor. -/
def jsRound (q : ℚ) : Int := (2 * q.num + (q.den : Int)) / (2 * (q.den : Int))

/-- Property access `data[k]` on a JS object literal (association list). -/
def getField (data : List (String × JsPrim)) (k : String) : JsPrim :=
  match data.find? (fun p => p.1 == k) with
  | some p => p.2
  | none => JsPrim.undef

/-! ## Base64 and the STK password (`generatePassword`) -/

/-- Standard base64 alphabet used by `Buffer.toString("base64")`. -/
def base64Alphabet : List Char :=
  "ABCDEFGHIJKLMNOPQRSTUVWXYZabcdefghijklmnopqrstuvwxyz0123456789+/".toList

/-- Alphabet lookup for one 6-bit group. -/
def base64Char (n : Nat) : Char := base64Alphabet.getD n '='

/-- Base64 of a byte list, three bytes to four output characters,
padded with `=`. -/
def base64EncodeBytes : List Nat → List Char
  | [] => []
  | [a] => [base64Char (a / 4), base64Char (a % 4 * 16), '=', '=']
  | [a, b] =>
      [base64Char (a / 4), base64Char (a % 4 * 16 + b / 16),
       base64Char (b % 16 * 4), '=']
  | a :: b :: c :: rest =>
      base64Char (a / 4) :: base64Char (a % 4 * 16 + b / 16) ::
        base64Char (b % 16 * 4 + c / 64) :: base64Char (c % 64) ::
          base64EncodeBytes rest

/-- Base64 of an ASCII string (`Buffer.from(s).toString("base64")`; all
inputs built from the config and digit timestamps are ASCII, where code
points coincide with UTF-8 bytes). -/
def base64Encode (s : String) : String :=
  String.mk (base64EncodeBytes (s.toList.map Char.toNat))

/-- Timestamp derivation in `generatePassword`:
keep the digits of the ISO instant and cut the millisecond digits,
yielding the `YYYYMMDDHHmmss` form. -/
def toMpesaTimestamp (iso : String) : String :=
  let digits := iso.toList.filter Char.isDigit
  String.mk (digits.take (digits.length - 3))

/-- Environment-derived provider configuration (`MPESA_CONFIG`). -/
structure MpesaConfig where
  shortCode : String
  passKey : String
  initiatorName : String
  securityCredential : String
deriving Repr, DecidableEq

/-- Source function `generatePassword`: base64 of
`shortCode + passKey + timestamp` paired with the timestamp, where the
timestamp comes from the current ISO instant `isoNow`. -/
def generatePassword (cfg : MpesaConfig) (isoNow : String) : String × String :=
  let timestamp := toMpesaTimestamp isoNow
  (base64Encode (cfg.shortCode ++ cfg.passKey ++ timestamp), timestamp)

/-! ## Phone normalization (`formatPhoneNumber`) -/

/-- Characters removed by the cleaning regex: whitespace, dash, plus. -/
def isStrippedChar (c : Char) : Bool := c.isWhitespace || c = '-' || c = '+'

/-- Cleaning step of `formatPhoneNumber`. -/
def stripPhone (l : List Char) : List Char := l.filter (fun c => !isStrippedChar c)

/-- Second statement of `formatPhoneNumber`: a leading `0` is replaced
with `254`. -/
def replaceLeadingZero : List Char → List Char
  | '0' :: rest => '2' :: '5' :: '4' :: rest
  | l => l

/-- Third statement of `formatPhoneNumber`: prepend `254` when the value
still does not start with it. -/
def ensure254 (l : List Char) : List Char :=
  if ['2', '5', '4'].isPrefixOf l then l else '2' :: '5' :: '4' :: l

/-- Core of `formatPhoneNumber` on character lists: clean, replace a
leading `0` with `254`, then prepend `254` when still missing. -/
def formatPhoneList (l : List Char) : List Char :=
  ensure254 (replaceLeadingZero (stripPhone l))

/-- Source function `formatPhoneNumber`. -/
def formatPhoneNumber (phone : String) : String :=
  String.mk (formatPhoneList phone.toList)

/-! ## STK push and query payloads -/

/-- Literal `Password` string occurring in `stkPushPayload` and
`queryPayload` (the base64 of the sandbox short code, the sandbox pass
key and the timestamp `20210628092408`). -/
def hardcodedStkPassword : String :=
  "MTc0Mzc5YmZiMjc5ZjlhYTliZGJjZjE1OGU5N2RkNzFhNDY3Y2QyZTBjODkzMDU5YjEwZjc4ZTZiNzJhZGExZWQyYzkxOTIwMjEwNjI4MDkyNDA4"

/-- Fields of the `stkPushPayload` object literal. -/
structure StkPushPayload where
  BusinessShortCode : String
  Password : String
  Timestamp : String
  TransactionType : String
  Amount : Int
  PartyA : String
  PartyB : String
  PhoneNumber : String
  CallBackURL : String
  AccountReference : String
  TransactionDesc : String
deriving Repr, DecidableEq

/-- The `stkPushPayload` object literal built in the `/stk-push` handler:
note that `Password` and `Timestamp` are the hard-coded literals of the
source, not the freshly generated pair. -/
def mkStkPushPayload (cfg : MpesaConfig) (callbackBase : String)
    (formattedPhone : String) (amount : ℚ)
    (accountReference transactionDesc : Option String) : StkPushPayload :=
  { BusinessShortCode := cfg.shortCode
    Password := hardcodedStkPassword
    Timestamp := "20210628092408"
    TransactionType := "CustomerPayBillOnline"
    Amount := jsRound amount
    PartyA := formattedPhone
    PartyB := cfg.shortCode
    PhoneNumber := formattedPhone
    CallBackURL := callbackBase ++ "/callback/stk-push"
    AccountReference := jsOr accountReference "Payment"
    TransactionDesc := jsOr transactionDesc "Payment for services" }

/-- Fields of the `queryPayload` object literal of `/query-stk`. -/
structure StkQueryPayload where
  BusinessShortCode : String
  Password : String
  Timestamp : String
  CheckoutRequestID : String
deriving Repr, DecidableEq

/-- The `queryPayload` object literal: again the hard-coded `Password`
and `Timestamp` literals, not the freshly generated pair. -/
def mkQueryPayload (cfg : MpesaConfig) (checkoutRequestID : String) : StkQueryPayload :=
  { BusinessShortCode := cfg.shortCode
    Password := hardcodedStkPassword
    Timestamp := "20210628092408"
    CheckoutRequestID := checkoutRequestID }

/-- Body of a `/stk-push` request. -/
structure StkRequest where
  phoneNumber : Option String
  amount : Option ℚ
  accountReference : Option String
  transactionDesc : Option String
deriving Repr, DecidableEq

/-- Outcome of the `/stk-push` handler up to the provider call: either a
400 validation rejection with its message, or the request payload sent
to the provider, paired with the `generatePassword` result that the
handler computed (and, in the source, then ignored). -/
inductive StkOutcome where
  | badRequest (message : String)
  | sent (freshPair : String × String) (payload : StkPushPayload)
deriving Repr, DecidableEq

/-- The `/stk-push` handler: validation, token acquisition (not modelled
here — its semantics is `generateAccessTokenStep`), password generation,
phone formatting, payload construction. -/
def stkPushHandler (cfg : MpesaConfig) (callbackBase : String) (isoNow : String)
    (req : StkRequest) : StkOutcome :=
  if !(jsTruthyStr req.phoneNumber && jsTruthyNum req.amount) then
    StkOutcome.badRequest "Phone number and amount are required"
  else if req.amount.getD 0 < 1 then
    StkOutcome.badRequest "Amount must be at least 1 KES"
  else
    let pw := generatePassword cfg isoNow
    let formattedPhone := formatPhoneNumber (req.phoneNumber.getD "")
    StkOutcome.sent pw
      (mkStkPushPayload cfg callbackBase formattedPhone (req.amount.getD 0)
        req.accountReference req.transactionDesc)

/-- Amount field of the payload an STK outcome sends, when one is sent. -/
def stkSentAmount : StkOutcome → Option Int
  | StkOutcome.badRequest _ => none
  | StkOutcome.sent _ p => some p.Amount

/-- Password field of the payload an STK outcome sends. -/
def stkSentPassword : StkOutcome → Option String
  | StkOutcome.badRequest _ => none
  | StkOutcome.sent _ p => some p.Password

/-- Timestamp field of the payload an STK outcome sends. -/
def stkSentTimestamp : StkOutcome → Option String
  | StkOutcome.badRequest _ => none
  | StkOutcome.sent _ p => some p.Timestamp

/-- The freshly computed password of an STK outcome. -/
def stkFreshPassword : StkOutcome → Option String
  | StkOutcome.badRequest _ => none
  | StkOutcome.sent pw _ => some pw.1

/-- The freshly computed timestamp of an STK outcome. -/
def stkFreshTimestamp : StkOutcome → Option String
  | StkOutcome.badRequest _ => none
  | StkOutcome.sent pw _ => some pw.2

/-! ## B2C payout request (`/b2c-payment`) -/

/-- The `transaction` object of a payout request body; the handler only
reads its `id`. -/
structure TransactionRef where
  id : String
deriving Repr, DecidableEq

/-- Body of a `/b2c-payment` request. -/
structure B2CRequest where
  phoneNumber : Option String
  transaction : Option TransactionRef
  finalProjectId : Option String
  amount : Option ℚ
  remarks : Option String
  occasion : Option String
deriving Repr, DecidableEq

/-- Fields of the `b2cPayload` object literal. -/
structure B2CPayload where
  OriginatorConversationID : String
  InitiatorName : String
  SecurityCredential : String
  CommandID : String
  Amount : Int
  PartyA : String
  PartyB : String
  Remarks : String
  QueueTimeOutURL : String
  ResultURL : String
  Occasion : String
deriving Repr, DecidableEq

/-- The `b2cPayload` object literal built in the `/b2c-payment` handler. -/
def mkB2cPayload (cfg : MpesaConfig) (callbackBase : String)
    (formattedPhone : String) (amount : ℚ)
    (remarks occasion : Option String) : B2CPayload :=
  { OriginatorConversationID := "600997_Test_32et3241ed8yu"
    InitiatorName := cfg.initiatorName
    SecurityCredential := cfg.securityCredential
    CommandID := "BusinessPayment"
    Amount := jsRound amount
    PartyA := cfg.shortCode
    PartyB := formattedPhone
    Remarks := jsOr remarks "Payment to freelancer"
    QueueTimeOutURL := callbackBase ++ "/callback/b2c-timeout"
    ResultURL := callbackBase ++ "/callback/b2c-result"
    Occasion := jsOr occasion "Freelancer Payment" }

/-- The record-store write the handler performs after the provider
acknowledgment: `update({status, mpesa_conversation_id}).eq("id", transaction.id)`. -/
structure B2CTxUpdate where
  filterId : String
  status : String
  mpesa_conversation_id : JsPrim
deriving Repr, DecidableEq

/-- The `data` object of the 200 response returned to the caller. -/
structure B2CSuccessData where
  conversationID : JsPrim
  originatorConversationID : JsPrim
  responseCode : JsPrim
  responseDescription : JsPrim
deriving Repr, DecidableEq

/-- Outcome of the `/b2c-payment` handler.  `badRequest` is a 400
rejection before any provider call.  `typeError` is the path where the
provider call has already been made and the subsequent read of
`transaction.id` throws on an absent `transaction`, so the catch block
answers 500.  `ok` carries the sent payload, the transaction-record
update and the success response data. -/
inductive B2COutcome where
  | badRequest (message : String)
  | typeError (payload : B2CPayload)
  | ok (payload : B2CPayload) (txUpdate : B2CTxUpdate) (response : B2CSuccessData)
deriving Repr, DecidableEq

/-- The `/b2c-payment` handler, with the provider acknowledgment body
`ackData` (the JS object `response.data`) supplied as a parameter.
Validation checks only `phoneNumber`/`amount` truthiness and the
minimum amount; the `transaction` field is read only after the provider
call. -/
def b2cPaymentHandler (cfg : MpesaConfig) (callbackBase : String)
    (req : B2CRequest) (ackData : List (String × JsPrim)) : B2COutcome :=
  if !(jsTruthyStr req.phoneNumber && jsTruthyNum req.amount) then
    B2COutcome.badRequest "Phone number and amount are required"
  else if req.amount.getD 0 < 10 then
    B2COutcome.badRequest "Minimum B2C amount is 10 KES"
  else
    let formattedPhone := formatPhoneNumber (req.phoneNumber.getD "")
    let payload := mkB2cPayload cfg callbackBase formattedPhone (req.amount.getD 0)
      req.remarks req.occasion
    match req.transaction with
    | none => B2COutcome.typeError payload
    | some tx =>
        B2COutcome.ok payload
          { filterId := tx.id
            status := "released"
            mpesa_conversation_id := getField ackData "conversationID" }
          { conversationID := getField ackData "ConversationID"
            originatorConversationID := getField ackData "OriginatorConversationID"
            responseCode := getField ackData "ResponseCode"
            responseDescription := getField ackData "ResponseDescription" }

/-- HTTP status of a payout outcome: 400 before the provider call, 500
when the `transaction.id` read throws, 200 on the success path. -/
def b2cStatusCode : B2COutcome → Nat
  | B2COutcome.badRequest _ => 400
  | B2COutcome.typeError _ => 500
  | B2COutcome.ok _ _ _ => 200

/-- Whether the outcome's control path issued the provider B2C call
(`axios.post` precedes the `transaction.id` read in the source). -/
def b2cProviderCalled : B2COutcome → Bool
  | B2COutcome.badRequest _ => false
  | B2COutcome.typeError _ => true
  | B2COutcome.ok _ _ _ => true

/-- Amount field of the payload a payout outcome sends, when one is sent. -/
def b2cSentAmount : B2COutcome → Option Int
  | B2COutcome.badRequest _ => none
  | B2COutcome.typeError p => some p.Amount
  | B2COutcome.ok p _ _ => some p.Amount

/-- Conversation id stored by the transaction update of a payout outcome. -/
def b2cStoredConvId : B2COutcome → Option JsPrim
  | B2COutcome.ok _ u _ => some u.mpesa_conversation_id
  | _ => none

/-- Conversation id returned to the caller by a payout outcome. -/
def b2cRespConvId : B2COutcome → Option JsPrim
  | B2COutcome.ok _ _ r => some r.conversationID
  | _ => none

/-! ## Provider callbacks -/

/-- Acknowledgment sent back to the provider by a callback route. -/
structure CallbackAck where
  status : Nat
  ResultCode : Int
  ResultDesc : String
deriving Repr, DecidableEq

/-- The unconditional `res.status(200).json({ResultCode: 0, ResultDesc: "Accepted"})`. -/
def acceptedAck : CallbackAck := ⟨200, 0, "Accepted"⟩

/-- The `stkCallback` object inside a charge-result callback body. -/
structure StkCallbackMsg where
  MerchantRequestID : JsPrim
  CheckoutRequestID : JsPrim
  ResultCode : Int
  ResultDesc : JsPrim
  CallbackMetadata : Option (List (String × JsPrim))
deriving Repr, DecidableEq

/-- Body of a charge-result callback: `malformed` models any body on
which destructuring `req.body.Body.stkCallback` throws. -/
inductive StkCallbackBody where
  | malformed
  | wellFormed (msg : StkCallbackMsg)
deriving Repr, DecidableEq

/-- Route `/callback/stk-push`: both result branches only log (flattening
the metadata on success); the acknowledgment after them — and the catch
block for a malformed body — always answer `acceptedAck`. -/
def stkCallbackRoute (body : StkCallbackBody) : CallbackAck :=
  match body with
  | StkCallbackBody.malformed => acceptedAck
  | StkCallbackBody.wellFormed _ => acceptedAck

/-- Flattening of key/value callback parameters into a map:
`parameters[param.Key] = param.Value` for each item, later items
overwriting earlier ones. -/
def flattenParams (l : List (String × JsPrim)) : String → JsPrim :=
  l.foldl (fun m p => fun k => if k = p.1 then p.2 else m k) (fun _ => JsPrim.undef)

/-- Transaction record of the backing store as touched by the payout
callbacks.  Mixed-typed columns are `JsPrim` (the success path writes
the string literal for the result code, the failure path the numeric
callback value). -/
structure TransactionRec where
  id : String
  status : String
  mpesa_conversation_id : Option String
  mpesa_transaction_id : JsPrim
  b2c_result_code : JsPrim
  b2c_result_description : JsPrim
  released_at : Option String
deriving Repr, DecidableEq

/-- The `Result` object of a payout-result callback body.
`ResultParameters` collapses the two optional levels
`ResultParameters?.ResultParameter` of the source into one option. -/
structure B2CResultMsg where
  ResultCode : Int
  ResultDesc : String
  ResultParameters : Option (List (String × JsPrim))
  ConversationID : Option String
deriving Repr, DecidableEq

/-- Record-store effect of the payout-result callback: the `update`
filtered by `eq("mpesa_conversation_id", ConversationID)` applied to
every matching record, on the success and the failure branch. -/
def b2cResultProcess (msg : B2CResultMsg) (db : List TransactionRec)
    (nowIso : String) : List TransactionRec :=
  if msg.ResultCode = 0 then
    let parameters := flattenParams (msg.ResultParameters.getD [])
    db.map fun r =>
      if r.mpesa_conversation_id = msg.ConversationID then
        { r with status := "released"
                 mpesa_transaction_id := parameters "TransactionID"
                 b2c_result_code := JsPrim.str "0"
                 b2c_result_description := JsPrim.str msg.ResultDesc
                 released_at := some nowIso }
      else r
  else
    db.map fun r =>
      if r.mpesa_conversation_id = msg.ConversationID then
        { r with status := "failed"
                 b2c_result_code := JsPrim.num msg.ResultCode
                 b2c_result_description := JsPrim.str msg.ResultDesc }
      else r

/-- Body of a payout-result callback: `malformed` models any body on
which destructuring `req.body.Result` throws. -/
inductive B2CResultBody where
  | malformed
  | wellFormed (msg : B2CResultMsg)
deriving Repr, DecidableEq

/-- Route `/callback/b2c-result`: destructure, update the store, and
acknowledge; a destructuring throw or a throwing store update lands in
the catch block, which acknowledges identically and leaves the store
unchanged. -/
def b2cResultRoute (body : B2CResultBody) (db : List TransactionRec)
    (nowIso : String) (updateThrows : Bool) : CallbackAck × List TransactionRec :=
  match body with
  | B2CResultBody.malformed => (acceptedAck, db)
  | B2CResultBody.wellFormed msg =>
      if updateThrows then (acceptedAck, db)
      else (acceptedAck, b2cResultProcess msg db nowIso)

/-- Body of a payout-timeout callback. -/
inductive B2CTimeoutBody where
  | malformed
  | wellFormed
deriving Repr, DecidableEq

/-- Route `/callback/b2c-timeout`: logs and acknowledges; the catch
block acknowledges identically. -/
def b2cTimeoutRoute (body : B2CTimeoutBody) : CallbackAck :=
  match body with
  | B2CTimeoutBody.malformed => acceptedAck
  | B2CTimeoutBody.wellFormed => acceptedAck

/-- Failure condition of one acquisition attempt: the network call threw,
or the response carried no truthy `access_token`
(`if (!access_token) throw ...`). -/
def acquisitionFailed (resp : Option TokenResponse) : Prop :=
  match resp with
  | none => True
  | some r => r.access_token = none ∨ r.access_token = some ""

/-- Transaction-record update of a payout outcome, when one happens. -/
def b2cTxUpdateOf : B2COutcome → Option B2CTxUpdate
  | B2COutcome.ok _ u _ => some u
  | _ => none

/-! ## Concrete fixtures -/

/-- Sandbox configuration: the short code and pass key from which the
hard-coded password literal of the source was derived. -/
def cfgSandbox : MpesaConfig :=
  ⟨"174379", "bfb279f9aa9bdbcf158e97dd71a467cd2e0c893059b10f78e6b72ada1ed2c919",
   "testapi", "cred"⟩

/-- A provider acknowledgment body for a payout request, carrying the
conversation id under the provider's `ConversationID` key (the key the
source itself reads when building the caller response). -/
def ackSample : List (String × JsPrim) :=
  [("ConversationID", JsPrim.str "AG_20250101_12345"),
   ("OriginatorConversationID", JsPrim.str "600997_Test"),
   ("ResponseCode", JsPrim.str "0"),
   ("ResponseDescription", JsPrim.str "Accept the service request successfully.")]

/-- A payout request with a valid phone and amount and a transaction
reference. -/
def b2cReqSample : B2CRequest :=
  ⟨some "0746221954", some ⟨"tx-1"⟩, none, some 100, none, none⟩

/-- A payout request with a valid phone and amount but no `transaction`
field. -/
def b2cReqNoTx : B2CRequest :=
  ⟨some "0746221954", none, none, some 10, none, none⟩

/-- An STK request with a valid phone and amount. -/
def stkReqSample : StkRequest := ⟨some "0746221954", some 100, none, none⟩

/-- Outcome of the STK handler on the sandbox config at the instant
2025-01-01T00:00:00.000Z. -/
def stkOutSample : StkOutcome :=
  stkPushHandler cfgSandbox "https://cb" "2025-01-01T00:00:00.000Z" stkReqSample

/-- The fresh password `generatePassword` produces for the sandbox config
at 2025-01-01T00:00:00.000Z. -/
def freshPasswordSample : String :=
  "MTc0Mzc5YmZiMjc5ZjlhYTliZGJjZjE1OGU5N2RkNzFhNDY3Y2QyZTBjODkzMDU5YjEwZjc4ZTZiNzJhZGExZWQyYzkxOTIwMjUwMTAxMDAwMDAw"

/-- A stored transaction record whose conversation id matches
`b2cMsgSample`. -/
def txSample : TransactionRec :=
  ⟨"tx-1", "held_in_escrow", some "AG_1", JsPrim.undef, JsPrim.undef,
   JsPrim.undef, none⟩

/-- A successful payout-result callback message for conversation `AG_1`. -/
def b2cMsgSample : B2CResultMsg :=
  ⟨0, "The service request is processed successfully.",
   some [("TransactionID", JsPrim.str "QK12XY"), ("TransactionAmount", JsPrim.num 100)],
   some "AG_1"⟩

/-! ## Helper lemmas -/

lemma jsRound_eq_floor (q : ℚ) : jsRound q = ⌊q + 1 / 2⌋ := by
  have hq : q + 1 / 2 =
      ((2 * q.num + (q.den : Int) : Int) : ℚ) / (((2 * q.den : ℕ)) : ℚ) := by
    conv_lhs => rw [← Rat.num_div_den q]
    push_cast
    field_simp
    ring
  rw [jsRound, hq, Rat.floor_intCast_div_natCast]
  push_cast
  rfl

lemma genStartOrJoin_inFlight (c : TokenCache) (fresh : Nat) :
    (genStartOrJoin c fresh).2.inFlight =
      some ((genStartOrJoin c fresh).2.inFlight.getD fresh) := by
  cases h : c.inFlight <;> simp [genStartOrJoin, h]

lemma genStartOrJoin_startNew_iff (c : TokenCache) (fresh : Nat) :
    (genStartOrJoin c fresh).1 = TokenAction.startNew fresh ↔ c.inFlight = none := by
  cases h : c.inFlight <;> simp [genStartOrJoin, h]

lemma generateAccessTokenStep_of_inFlight (c : TokenCache) (now : Int)
    (fresh h : Nat) (hin : c.inFlight = some h) :
    (generateAccessTokenStep c now fresh).2 = c ∧
      ((generateAccessTokenStep c now fresh).1 = TokenAction.joinInFlight h ∨
       ∃ t, c.token = some t ∧
         (generateAccessTokenStep c now fresh).1 = TokenAction.returnCached t) := by
  unfold generateAccessTokenStep genStartOrJoin
  cases htok : c.token with
  | none => simp [hin]
  | some t =>
      by_cases hlt : now < c.expiresAt
      · simp [hin, hlt]
      · simp [hin, hlt]

lemma generateAccessTokenStep_of_free (c : TokenCache) (now : Int) (fresh : Nat)
    (hin : c.inFlight = none) (hstale : c.token = none ∨ ¬ now < c.expiresAt) :
    generateAccessTokenStep c now fresh =
      (TokenAction.startNew fresh, { c with inFlight := some fresh }) := by
  unfold generateAccessTokenStep genStartOrJoin
  cases htok : c.token with
  | none => simp [hin]
  | some t =>
      rcases hstale with hnone | hge
      · rw [htok] at hnone; exact absurd hnone (by simp)
      · simp [hin, hge]

lemma singleFlightInv_applyCall (s : SysState) (now : Int)
    (hs : SingleFlightInv s) : SingleFlightInv (applyCall s now) := by
  unfold SingleFlightInv at *
  cases hin : s.cache.inFlight with
  | some h =>
      obtain ⟨hc, _⟩ := generateAccessTokenStep_of_inFlight s.cache now s.nextHandle h hin
      unfold applyCall
      rcases hact : (generateAccessTokenStep s.cache now s.nextHandle) with ⟨a, c'⟩
      rw [hact] at hc; simp at hc; subst hc
      cases a <;> simp_all
  | none =>
      rw [hin] at hs; simp at hs
      unfold applyCall generateAccessTokenStep genStartOrJoin
      cases htok : s.cache.token with
      | none => simp [hin, hs]
      | some t =>
          by_cases hlt : now < s.cache.expiresAt
          · simp [hin, hlt, hs]
          · simp [hin, hlt, hs]

lemma singleFlightInv_applyComplete (s : SysState) (resp : Option TokenResponse)
    (now2 : Int) (h : Nat) (hin : s.cache.inFlight = some h)
    (hs : SingleFlightInv s) : SingleFlightInv (applyComplete s resp now2) := by
  unfold SingleFlightInv at *
  rw [hin] at hs
  simp at hs
  unfold applyComplete acquisitionComplete
  cases resp with
  | none => simp [hs]
  | some r =>
      cases hacc : r.access_token with
      | none => simp [hacc, hs]
      | some t => by_cases ht : t = "" <;> simp [hacc, ht, hs]

lemma singleFlightInv_reachable (s : SysState) (hr : Reachable s) :
    SingleFlightInv s := by
  induction hr with
  | init => rfl
  | step _ hstep ih =>
      cases hstep with
      | call now => exact singleFlightInv_applyCall _ now ih
      | complete h resp now2 hin =>
          exact singleFlightInv_applyComplete _ resp now2 h hin ih

lemma stripPhone_of_forall (l : List Char) (h : ∀ x ∈ l, !isStrippedChar x) :
    stripPhone l = l := by
  unfold stripPhone
  exact List.filter_eq_self.mpr h

lemma mem_stripPhone_not_stripped {l : List Char} {x : Char}
    (hx : x ∈ stripPhone l) : !isStrippedChar x := by
  unfold stripPhone at hx
  exact (List.mem_filter.mp hx).2

lemma mem_replaceLeadingZero {l : List Char} {x : Char}
    (hx : x ∈ replaceLeadingZero l) :
    x ∈ l ∨ x = '2' ∨ x = '5' ∨ x = '4' := by
  unfold replaceLeadingZero at hx
  split at hx
  · simp only [List.mem_cons] at hx
    rcases hx with h | h | h | h
    · exact Or.inr (Or.inl h)
    · exact Or.inr (Or.inr (Or.inl h))
    · exact Or.inr (Or.inr (Or.inr h))
    · exact Or.inl (List.mem_cons_of_mem _ h)
  · exact Or.inl hx

lemma mem_ensure254 {l : List Char} {x : Char}
    (hx : x ∈ ensure254 l) :
    x ∈ l ∨ x = '2' ∨ x = '5' ∨ x = '4' := by
  unfold ensure254 at hx
  split at hx
  · exact Or.inl hx
  · simp only [List.mem_cons] at hx
    rcases hx with h | h | h | h
    · exact Or.inr (Or.inl h)
    · exact Or.inr (Or.inr (Or.inl h))
    · exact Or.inr (Or.inr (Or.inr h))
    · exact Or.inl h

lemma formatPhoneList_forall_not_stripped (l : List Char) :
    ∀ x ∈ formatPhoneList l, !isStrippedChar x := by
  intro x hx
  unfold formatPhoneList at hx
  rcases mem_ensure254 hx with h | h | h | h
  · rcases mem_replaceLeadingZero h with h2 | h2 | h2 | h2
    · exact mem_stripPhone_not_stripped h2
    · subst h2; decide
    · subst h2; decide
    · subst h2; decide
  · subst h; decide
  · subst h; decide
  · subst h; decide

lemma ensure254_starts (l : List Char) :
    ∃ rest, ensure254 l = '2' :: '5' :: '4' :: rest := by
  unfold ensure254
  by_cases hp : ['2', '5', '4'].isPrefixOf l
  · rw [if_pos hp]
    obtain ⟨t, ht⟩ := List.isPrefixOf_iff_prefix.mp hp
    exact ⟨t, ht.symm⟩
  · rw [if_neg hp]
    exact ⟨l, rfl⟩

lemma formatPhoneList_starts_254 (l : List Char) :
    ∃ rest, formatPhoneList l = '2' :: '5' :: '4' :: rest :=
  ensure254_starts _

lemma formatPhoneList_idem (l : List Char) :
    formatPhoneList (formatPhoneList l) = formatPhoneList l := by
  obtain ⟨rest, hrest⟩ := formatPhoneList_starts_254 l
  have hclean : stripPhone (formatPhoneList l) = formatPhoneList l :=
    stripPhone_of_forall _ (formatPhoneList_forall_not_stripped l)
  have h1 : formatPhoneList (formatPhoneList l) =
      ensure254 (replaceLeadingZero (stripPhone (formatPhoneList l))) := rfl
  rw [h1, hclean, hrest]
  rw [show replaceLeadingZero ('2' :: '5' :: '4' :: rest) =
    '2' :: '5' :: '4' :: rest from rfl]
  unfold ensure254
  rw [if_pos (by simp [List.isPrefixOf])]

lemma startNew_imp_free (c : TokenCache) (now : Int) (fresh h2 : Nat)
    (hs : (generateAccessTokenStep c now fresh).1 = TokenAction.startNew h2) :
    c.inFlight = none := by
  cases hin : c.inFlight with
  | none => rfl
  | some h =>
      obtain ⟨_, hact⟩ := generateAccessTokenStep_of_inFlight c now fresh h hin
      rcases hact with hj | ⟨t, _, hret⟩
      · rw [hj] at hs; simp at hs
      · rw [hret] at hs; simp at hs

lemma applyCall_of_inFlight (s : SysState) (now : Int) (h : Nat)
    (hin : s.cache.inFlight = some h) :
    applyCall s now = ⟨s.cache, s.outstanding, s.nextHandle⟩ := by
  obtain ⟨hc, hact⟩ := generateAccessTokenStep_of_inFlight s.cache now s.nextHandle h hin
  unfold applyCall
  rcases hstep : generateAccessTokenStep s.cache now s.nextHandle with ⟨a, c'⟩
  rw [hstep] at hc hact
  simp only at hc
  subst hc
  rcases hact with hj | ⟨t, _, hret⟩
  · simp only at hj; subst hj; rfl
  · simp only at hret; subst hret; rfl

/-! ## Claim theorems -/

/-- C1 — Single-flight token acquisition.  In every reachable state of the
token-cache state machine at most one provider authentication request is
outstanding; while one is in flight (marker `some h`), a call issues no
second provider request (`outstanding` is unchanged and the marker keeps
the same handle `h`) and, unless it returns a currently valid cached
token, it joins exactly the pending handle `h` — whose single settlement
(`acquisitionComplete`) is what every joiner receives, so all receive the
same resolved token or the same error; and a fresh acquisition can start
only when no in-flight marker is set. -/
theorem single_flight_token_acquisition (s : SysState) (hr : Reachable s) :
    s.outstanding ≤ 1 ∧
    (∀ now h, s.cache.inFlight = some h →
      (applyCall s now).outstanding = s.outstanding ∧
      (applyCall s now).cache.inFlight = some h ∧
      ((generateAccessTokenStep s.cache now s.nextHandle).1 =
          TokenAction.joinInFlight h ∨
        ∃ t, (generateAccessTokenStep s.cache now s.nextHandle).1 =
          TokenAction.returnCached t)) ∧
    (∀ now fresh h2,
      (generateAccessTokenStep s.cache now fresh).1 = TokenAction.startNew h2 →
      s.cache.inFlight = none) := by
  have hinv := singleFlightInv_reachable s hr
  unfold SingleFlightInv at hinv
  refine ⟨?_, ?_, ?_⟩
  · rw [hinv]; split <;> simp
  · intro now h hin
    have happ := applyCall_of_inFlight s now h hin
    obtain ⟨_, hact⟩ :=
      generateAccessTokenStep_of_inFlight s.cache now s.nextHandle h hin
    refine ⟨by rw [happ], by rw [happ]; exact hin, ?_⟩
    rcases hact with hj | ⟨t, _, hret⟩
    · exact Or.inl hj
    · exact Or.inr ⟨t, hret⟩
  · intro now fresh h2 hs
    exact startNew_imp_free s.cache now fresh h2 hs

/-- Witness for C1 at the state reached by one call from process start:
one request outstanding, and a second call while it is in flight issues
no new request. -/
theorem single_flight_token_acquisition_witness :
    (applyCall initState 0).outstanding ≤ 1 ∧
    (applyCall (applyCall initState 0) 5).outstanding =
      (applyCall initState 0).outstanding := by
  have hr : Reachable (applyCall initState 0) :=
    Reachable.step Reachable.init (SysStep.call initState 0)
  have h := single_flight_token_acquisition (applyCall initState 0) hr
  exact ⟨h.1, (h.2.1 5 0 (by decide)).1⟩

/-- C2 — Cache policy of `generateAccessToken`: with a cached token and
`now` strictly before `expiresAt` the cached token is returned at once and
the cache is untouched (no network call — the `returnCached` action); with
no cached token, or `expiresAt` reached, and no acquisition in flight,
exactly one new acquisition starts (the single `startNew` action, setting
the one in-flight handle). -/
theorem cached_token_policy (c : TokenCache) (now : Int) (fresh : Nat) :
    (∀ t, c.token = some t → now < c.expiresAt →
      generateAccessTokenStep c now fresh = (TokenAction.returnCached t, c)) ∧
    ((c.token = none ∨ ¬ now < c.expiresAt) → c.inFlight = none →
      generateAccessTokenStep c now fresh =
        (TokenAction.startNew fresh, { c with inFlight := some fresh })) := by
  constructor
  · intro t ht hlt
    unfold generateAccessTokenStep
    rw [ht]
    simp [hlt]
  · intro hstale hfree
    exact generateAccessTokenStep_of_free c now fresh hfree hstale

/-- Witness for C2: a valid cached token is returned unchanged; an empty
cache starts a fresh acquisition. -/
theorem cached_token_policy_witness :
    generateAccessTokenStep ⟨some "tok", 100, none⟩ 50 7 =
      (TokenAction.returnCached "tok", ⟨some "tok", 100, none⟩) ∧
    generateAccessTokenStep initialCache 0 0 =
      (TokenAction.startNew 0, ⟨none, 0, some 0⟩) :=
  ⟨(cached_token_policy ⟨some "tok", 100, none⟩ 50 7).1 "tok" rfl (by decide),
   (cached_token_policy initialCache 0 0).2 (Or.inl rfl) rfl⟩

/-- C3 — On a failed acquisition the cache resets to the empty state
(token cleared, expiry zeroed, marker cleared) and the shared in-flight
promise settles with the one typed rejection every waiter receives; and
on every settlement, success or failure, the in-flight marker is
cleared. -/
theorem acquisition_failure_resets_cache (c : TokenCache) (now2 : Int) :
    (∀ resp, acquisitionFailed resp →
      acquisitionComplete c resp now2 =
        (AcqOutcome.rejected "Failed to generate access token",
         ⟨none, 0, none⟩)) ∧
    (∀ resp, (acquisitionComplete c resp now2).2.inFlight = none) := by
  constructor
  · intro resp hfail
    unfold acquisitionFailed at hfail
    cases resp with
    | none => rfl
    | some r =>
        unfold acquisitionComplete
        rcases hfail with h1 | h2
        · simp [h1]
        · simp [h2]
  · intro resp
    unfold acquisitionComplete
    cases resp with
    | none => rfl
    | some r =>
        cases hacc : r.access_token with
        | none => simp [hacc]
        | some t => by_cases ht : t = "" <;> simp [hacc, ht]

/-- Witness for C3: a network failure resets a populated cache; a
successful settlement still clears the marker. -/
theorem acquisition_failure_resets_cache_witness :
    acquisitionComplete ⟨some "old", 99, some 3⟩ none 0 =
      (AcqOutcome.rejected "Failed to generate access token",
       ⟨none, 0, none⟩) ∧
    (acquisitionComplete ⟨some "old", 99, some 3⟩
      (some ⟨some "fresh", some 3599⟩) 10).2.inFlight = none :=
  ⟨(acquisition_failure_resets_cache ⟨some "old", 99, some 3⟩ 0).1 none trivial,
   (acquisition_failure_resets_cache ⟨some "old", 99, some 3⟩ 10).2
     (some ⟨some "fresh", some 3599⟩)⟩

/-- C4 — refuted on the code (code bug).  The charge and query payloads do
not carry the freshly computed password and timestamp: both carry the
hard-coded literals of the source.  At the sandbox config and instant
2025-01-01T00:00:00.000Z the sent `Password`/`Timestamp` differ from the
fresh pair the handler itself computed; and the hard-coded literal is
exactly the fresh password of the stale instant 2021-06-28T09:24:08. -/
theorem stk_password_is_hardcoded :
    stkSentPassword stkOutSample = some hardcodedStkPassword ∧
    stkSentTimestamp stkOutSample = some "20210628092408" ∧
    stkFreshPassword stkOutSample = some freshPasswordSample ∧
    stkFreshTimestamp stkOutSample = some "20250101000000" ∧
    stkSentPassword stkOutSample ≠ stkFreshPassword stkOutSample ∧
    stkSentTimestamp stkOutSample ≠ stkFreshTimestamp stkOutSample ∧
    (mkQueryPayload cfgSandbox "ws_CO_191220191020363925").Password =
      hardcodedStkPassword ∧
    (mkQueryPayload cfgSandbox "ws_CO_191220191020363925").Timestamp =
      "20210628092408" ∧
    (generatePassword cfgSandbox "2021-06-28T09:24:08.000Z").1 =
      hardcodedStkPassword := by
  refine ⟨by decide, by decide, by decide, by decide, by decide, by decide,
    by decide, by decide, by decide⟩

/-- C5 — Every callback route acknowledges with the success envelope
(status 200, ResultCode 0, ResultDesc "Accepted") unconditionally: for a
malformed body, for any well-formed body, and when the internal store
update throws. -/
theorem callbacks_always_acknowledge :
    (∀ body, stkCallbackRoute body = acceptedAck) ∧
    (∀ body db nowIso updateThrows,
      (b2cResultRoute body db nowIso updateThrows).1 = acceptedAck) ∧
    (∀ body, b2cTimeoutRoute body = acceptedAck) := by
  refine ⟨?_, ?_, ?_⟩
  · intro body; cases body <;> rfl
  · intro body db nowIso u
    cases body with
    | malformed => rfl
    | wellFormed msg => cases u <;> rfl
  · intro body; cases body <;> rfl

/-- C6 — Payout-result reconciliation: every stored record whose
conversation id matches the callback's is updated — on result code 0 to
status released with the flattened parameters' transaction id and the
result description, on a nonzero code to status failed with that code and
description — and every other record is unchanged. -/
theorem payout_result_updates_matching_record
    (msg : B2CResultMsg) (db : List TransactionRec) (nowIso : String)
    (i : Nat) (r : TransactionRec) (hri : db[i]? = some r) :
    (b2cResultProcess msg db nowIso)[i]? = some (
      if r.mpesa_conversation_id = msg.ConversationID then
        if msg.ResultCode = 0 then
          { r with status := "released"
                   mpesa_transaction_id :=
                     flattenParams (msg.ResultParameters.getD []) "TransactionID"
                   b2c_result_code := JsPrim.str "0"
                   b2c_result_description := JsPrim.str msg.ResultDesc
                   released_at := some nowIso }
        else
          { r with status := "failed"
                   b2c_result_code := JsPrim.num msg.ResultCode
                   b2c_result_description := JsPrim.str msg.ResultDesc }
      else r) := by
  unfold b2cResultProcess
  by_cases h0 : msg.ResultCode = 0 <;>
    simp [h0, List.getElem?_map, hri]

/-- Witness for C6: a successful callback for conversation `AG_1` turns
the matching escrowed record into a released one carrying the provider's
transaction id. -/
theorem payout_result_updates_matching_record_witness :
    (b2cResultProcess b2cMsgSample [txSample] "2025-01-01T00:00:00.000Z")[0]? =
      some ⟨"tx-1", "released", some "AG_1", JsPrim.str "QK12XY", JsPrim.str "0",
        JsPrim.str "The service request is processed successfully.",
        some "2025-01-01T00:00:00.000Z"⟩ :=
  (payout_result_updates_matching_record b2cMsgSample [txSample]
    "2025-01-01T00:00:00.000Z" 0 txSample (by decide)).trans (by decide)

/-- C7 — refuted on the code (code bug).  On a successful payout
acknowledgment the record is marked released, but the stored
`mpesa_conversation_id` is `response.data.conversationID` — absent from
the provider acknowledgment, hence `undefined` — while the caller
response carries `response.data.ConversationID`; the stored value and
the returned value differ. -/
theorem payout_stores_undefined_conversation_id :
    b2cTxUpdateOf (b2cPaymentHandler cfgSandbox "https://cb" b2cReqSample ackSample) =
      some ⟨"tx-1", "released", JsPrim.undef⟩ ∧
    b2cRespConvId (b2cPaymentHandler cfgSandbox "https://cb" b2cReqSample ackSample) =
      some (JsPrim.str "AG_20250101_12345") ∧
    b2cStoredConvId (b2cPaymentHandler cfgSandbox "https://cb" b2cReqSample ackSample) ≠
      b2cRespConvId (b2cPaymentHandler cfgSandbox "https://cb" b2cReqSample ackSample) := by
  refine ⟨by decide, by decide, by decide⟩

/-- C8 — counterexample.  A payout request with a valid phone and amount
but no `transaction` field is not rejected with a 400: the provider call
is issued and the handler then fails with a 500. -/
theorem payout_missing_transaction_not_rejected :
    b2cStatusCode (b2cPaymentHandler cfgSandbox "https://cb" b2cReqNoTx ackSample) = 500 ∧
    b2cProviderCalled (b2cPaymentHandler cfgSandbox "https://cb" b2cReqNoTx ackSample) = true := by
  decide

/-- C8 (amended) — The only 400-class validations of the payout handler
are a falsy `phoneNumber` or `amount` and an amount below the minimum 10,
each rejected before any provider call; the `transaction` field is not
validated: a request passing those checks with no `transaction` reaches
the provider and then yields a 500 from the `transaction.id` read. -/
theorem payout_validation_behaviour (cfg : MpesaConfig) (cb : String)
    (req : B2CRequest) (ack : List (String × JsPrim)) :
    ((jsTruthyStr req.phoneNumber && jsTruthyNum req.amount) = false →
      b2cPaymentHandler cfg cb req ack =
        B2COutcome.badRequest "Phone number and amount are required" ∧
      b2cProviderCalled (b2cPaymentHandler cfg cb req ack) = false) ∧
    ((jsTruthyStr req.phoneNumber && jsTruthyNum req.amount) = true →
      req.amount.getD 0 < 10 →
      b2cPaymentHandler cfg cb req ack =
        B2COutcome.badRequest "Minimum B2C amount is 10 KES" ∧
      b2cProviderCalled (b2cPaymentHandler cfg cb req ack) = false) ∧
    ((jsTruthyStr req.phoneNumber && jsTruthyNum req.amount) = true →
      ¬ req.amount.getD 0 < 10 →
      req.transaction = none →
      b2cStatusCode (b2cPaymentHandler cfg cb req ack) = 500 ∧
      b2cProviderCalled (b2cPaymentHandler cfg cb req ack) = true) := by
  refine ⟨?_, ?_, ?_⟩
  · intro hval
    have h : b2cPaymentHandler cfg cb req ack =
        B2COutcome.badRequest "Phone number and amount are required" := by
      unfold b2cPaymentHandler
      rw [hval]
      rfl
    exact ⟨h, by rw [h]; rfl⟩
  · intro hval hmin
    have h : b2cPaymentHandler cfg cb req ack =
        B2COutcome.badRequest "Minimum B2C amount is 10 KES" := by
      unfold b2cPaymentHandler
      rw [hval]
      simp [hmin]
    exact ⟨h, by rw [h]; rfl⟩
  · intro hval hmin htx
    have h : b2cPaymentHandler cfg cb req ack =
        B2COutcome.typeError
          (mkB2cPayload cfg cb (formatPhoneNumber (req.phoneNumber.getD ""))
            (req.amount.getD 0) req.remarks req.occasion) := by
      unfold b2cPaymentHandler
      rw [hval, htx]
      simp [hmin]
    exact ⟨by rw [h]; rfl, by rw [h]; rfl⟩

/-- Witness for C8 (amended): a request with no phone is rejected with the
required-fields 400 message; one with a valid phone and amount 5 is
rejected with the minimum-amount 400 message and no provider call; one
missing only `transaction` ends in a 500 after the provider call. -/
theorem payout_validation_behaviour_witness :
    b2cPaymentHandler cfgSandbox "https://cb"
      ⟨none, none, none, some 10, none, none⟩ ackSample =
      B2COutcome.badRequest "Phone number and amount are required" ∧
    (b2cPaymentHandler cfgSandbox "https://cb"
      ⟨some "0746221954", none, none, some 5, none, none⟩ ackSample =
      B2COutcome.badRequest "Minimum B2C amount is 10 KES" ∧
     b2cProviderCalled (b2cPaymentHandler cfgSandbox "https://cb"
      ⟨some "0746221954", none, none, some 5, none, none⟩ ackSample) = false) ∧
    b2cStatusCode (b2cPaymentHandler cfgSandbox "https://cb" b2cReqNoTx ackSample) = 500 :=
  ⟨((payout_validation_behaviour cfgSandbox "https://cb"
      ⟨none, none, none, some 10, none, none⟩ ackSample).1 (by decide)).1,
   (payout_validation_behaviour cfgSandbox "https://cb"
      ⟨some "0746221954", none, none, some 5, none, none⟩ ackSample).2.1
      (by decide) (by decide),
   ((payout_validation_behaviour cfgSandbox "https://cb" b2cReqNoTx ackSample).2.2
      (by decide) (by decide) rfl).1⟩

/-- C9 — Phone normalization: the three reference examples, and
idempotence of `formatPhoneNumber` on every input. -/
theorem phone_normalization :
    formatPhoneNumber "0746221954" = "254746221954" ∧
    formatPhoneNumber "+254746221954" = "254746221954" ∧
    formatPhoneNumber "746221954" = "254746221954" ∧
    ∀ s : String, formatPhoneNumber (formatPhoneNumber s) = formatPhoneNumber s := by
  refine ⟨by decide, by decide, by decide, ?_⟩
  intro s
  unfold formatPhoneNumber
  rw [show (String.mk (formatPhoneList s.toList)).toList =
    formatPhoneList s.toList from rfl]
  rw [formatPhoneList_idem]

/-- C10 — For every charge and payout request that passes validation the
payload's Amount is `Math.round` of the request amount; the non-integer
10.4 (`mkRat 104 10`) passes the payout minimum and is sent as 10; and
`jsRound` is the floor of `q + 1/2`, the JS `Math.round`. -/
theorem amount_is_rounded (cfg : MpesaConfig) (cb isoNow : String)
    (stkReq : StkRequest) (b2cReq : B2CRequest) (ack : List (String × JsPrim))
    (qs qb : ℚ) :
    (stkReq.amount = some qs → jsTruthyStr stkReq.phoneNumber = true → qs ≠ 0 →
      ¬ qs < 1 →
      stkSentAmount (stkPushHandler cfg cb isoNow stkReq) = some (jsRound qs)) ∧
    (b2cReq.amount = some qb → jsTruthyStr b2cReq.phoneNumber = true → qb ≠ 0 →
      ¬ qb < 10 →
      b2cSentAmount (b2cPaymentHandler cfg cb b2cReq ack) = some (jsRound qb)) ∧
    jsRound (mkRat 104 10) = 10 ∧
    (mkRat 104 10 : ℚ) = 104 / 10 ∧
    (∀ q : ℚ, jsRound q = ⌊q + 1 / 2⌋) := by
  refine ⟨?_, ?_, by decide, by norm_num [Rat.mkRat_eq_div], jsRound_eq_floor⟩
  · intro hamt hphone hq0 hmin
    have hval : (jsTruthyStr stkReq.phoneNumber && jsTruthyNum stkReq.amount) = true := by
      rw [hphone, hamt]
      unfold jsTruthyNum
      simp [hq0]
    unfold stkPushHandler
    rw [hval, hamt]
    simp [hmin, stkSentAmount, mkStkPushPayload]
  · intro hamt hphone hq0 hmin
    have hval : (jsTruthyStr b2cReq.phoneNumber && jsTruthyNum b2cReq.amount) = true := by
      rw [hphone, hamt]
      unfold jsTruthyNum
      simp [hq0]
    unfold b2cPaymentHandler
    rw [hval, hamt]
    cases htx : b2cReq.transaction <;>
      simp [hmin, htx, b2cSentAmount, mkB2cPayload]

/-- Witness for C10: an STK charge of 10.4 and a payout of 10.4 both pass
validation and send Amount 10. -/
theorem amount_is_rounded_witness :
    stkSentAmount (stkPushHandler cfgSandbox "https://cb" "2025-01-01T00:00:00.000Z"
      ⟨some "0746221954", some (mkRat 104 10), none, none⟩) = some (jsRound (mkRat 104 10)) ∧
    b2cSentAmount (b2cPaymentHandler cfgSandbox "https://cb"
      ⟨some "0746221954", some ⟨"tx-1"⟩, none, some (mkRat 104 10), none, none⟩ ackSample) =
      some (jsRound (mkRat 104 10)) :=
  ⟨(amount_is_rounded cfgSandbox "https://cb" "2025-01-01T00:00:00.000Z"
      ⟨some "0746221954", some (mkRat 104 10), none, none⟩
      ⟨some "0746221954", some ⟨"tx-1"⟩, none, some (mkRat 104 10), none, none⟩
      ackSample (mkRat 104 10) (mkRat 104 10)).1
      rfl (by decide) (by decide) (by decide),
   (amount_is_rounded cfgSandbox "https://cb" "2025-01-01T00:00:00.000Z"
      ⟨some "0746221954", some (mkRat 104 10), none, none⟩
      ⟨some "0746221954", some ⟨"tx-1"⟩, none, some (mkRat 104 10), none, none⟩
      ackSample (mkRat 104 10) (mkRat 104 10)).2.1
      rfl (by decide) (by decide) (by decide)⟩

end LancerMpesa
